import Mathlib

/-!
Shallow embedding of BlackOrder/configwatcher (src/main.go).

The repository's core is a single file defining `Watcher[T]`: an in-memory
configuration value backed by a JSON file, reloaded on filesystem events,
with change broadcasts and best-effort error reporting.

Modelling decisions:
* Bytes of a file or of a serialized value are `List Nat`.
* `encoding/json` is abstracted as a `Serializer T` record: `marshal`
  models `json.Marshal` (`none` = error; Go then returns a nil byte
  slice, modelled by `Option.getD []` at the use site), `marshalIndent`
  models `json.MarshalIndent(v, "", "  ")`, `unmarshal` models
  `json.Unmarshal`.
* The watcher's world is a single record `WatcherState`: the
  `atomic.Value` content (`value`), the backing file's bytes
  (`file = none` models missing/unreadable), whether `os.WriteFile`
  succeeds (`writable`), the optional error channel with its capacity
  (`sinkCap`; `none` = no channel attached) and buffered contents
  (`errors`), and the number of `hub.Broadcast()` calls (`broadcasts`).
  The model is sequential: no consumer drains the channel between steps,
  so `select { case errChan <- err: default: }` appends iff there is an
  attached channel with free capacity.
-/

namespace ConfigWatcher

/-- Raw bytes of a file or of a serialized value. -/
abbrev Bytes := List Nat

/-- Error taxonomy of the spec: IO failures (`os.ReadFile`/`os.WriteFile`),
serialization failures (`json.Marshal`/`json.Unmarshal`), and failures of
the fsnotify error stream. -/
inductive GoError where
  | ioError
  | serializationError
  | watchError
deriving DecidableEq, Repr

/-- Abstract JSON serializer for the generic type `T`, modelling the
`encoding/json` calls made in src/main.go. `marshal v = none` models
`json.Marshal(v)` returning a non-nil error together with a nil slice. -/
structure Serializer (T : Type) where
  marshal : T → Option Bytes
  marshalIndent : T → Option Bytes
  unmarshal : Bytes → Option T

/-- State of one `Watcher[T]` together with its backing file and error
channel (see the module docstring for the field conventions). -/
structure WatcherState (T : Type) where
  value : T
  filename : String
  file : Option Bytes
  writable : Bool
  sinkCap : Option Nat
  errors : List GoError
  broadcasts : Nat
deriving Repr

/-- `sendError` (main.go:149-157): non-blocking send on the error channel;
drops the error when no channel is attached or the buffer is full. -/
def sendError {T : Type} (w : WatcherState T) (e : GoError) : WatcherState T :=
  match w.sinkCap with
  | none => w
  | some cap =>
      if w.errors.length < cap then { w with errors := w.errors ++ [e] }
      else w

/-- `Get` (main.go:64-66): lock-free read of the atomic value. -/
def Get {T : Type} (w : WatcherState T) : T :=
  w.value

/-- `equal` (main.go:160-164): deep equality via JSON round-trip; marshal
errors are discarded and the (then nil) byte slices compared. -/
def equal {T : Type} (S : Serializer T) (a b : T) : Bool :=
  ((S.marshal a).getD []) == ((S.marshal b).getD [])

/-- `writeFile` (main.go:135-146): serialize with indentation and write to
the file, reporting and returning any marshal or write error; never
reloads. -/
def writeFile {T : Type} (S : Serializer T) (w : WatcherState T) (cfg : T) :
    WatcherState T × Option GoError :=
  match S.marshalIndent cfg with
  | none => (sendError w GoError.serializationError, some GoError.serializationError)
  | some data =>
      if w.writable then ({ w with file := some data }, none)
      else (sendError w GoError.ioError, some GoError.ioError)

/-- `load` (main.go:111-132): read the file; on read error report IOError
and write the current value back; on empty content write the current
value back; on unmarshal error report SerializationError; otherwise store
and broadcast iff the new value differs under `equal`. -/
def load {T : Type} (S : Serializer T) (w : WatcherState T) : WatcherState T :=
  match w.file with
  | none =>
      let w1 := sendError w GoError.ioError
      (writeFile S w1 (Get w1)).1
  | some data =>
      if data.length = 0 then (writeFile S w (Get w)).1
      else
        match S.unmarshal data with
        | none => sendError w GoError.serializationError
        | some newVal =>
            if equal S (Get w) newVal then w
            else { w with value := newVal, broadcasts := w.broadcasts + 1 }

/-- `Save` (main.go:74-86): serialize with indentation, write, then reload;
marshal and write failures are reported to the sink and returned
synchronously. -/
def Save {T : Type} (S : Serializer T) (w : WatcherState T) (cfg : T) :
    WatcherState T × Option GoError :=
  match S.marshalIndent cfg with
  | none => (sendError w GoError.serializationError, some GoError.serializationError)
  | some data =>
      if w.writable then (load S { w with file := some data }, none)
      else (sendError w GoError.ioError, some GoError.ioError)

/-- The functional options of main.go:16-21; `WithErrorChan` is the only
one defined. The capacity records the buffered capacity of the supplied
channel. -/
inductive WatcherOption where
  | withErrorChan (cap : Nat)

/-- Application of one option mutator (main.go:43-45 body). -/
def applyOption {T : Type} (w : WatcherState T) : WatcherOption → WatcherState T
  | WatcherOption.withErrorChan cap => { w with sinkCap := some cap }

/-- `NewWatcher` (main.go:35-61): store the default, run the initial
`load`, then apply the option mutators. (The subsequent fsnotify setup
only spawns the watch loop modelled by `watchStep` below.) -/
def NewWatcher {T : Type} (S : Serializer T) (defaultVal : T) (filename : String)
    (initFile : Option Bytes) (writable : Bool) (opts : List WatcherOption) :
    WatcherState T :=
  let w0 : WatcherState T :=
    { value := defaultVal, filename := filename, file := initFile,
      writable := writable, sinkCap := none, errors := [], broadcasts := 0 }
  let w1 := load S w0
  opts.foldl applyOption w1

/-- fsnotify bitmask constant `Create = 1 << 0`. -/
def createOp : Nat := 1

/-- fsnotify bitmask constant `Write = 1 << 1`. -/
def writeOp : Nat := 2

/-- One wakeup of the `watchFS` select loop (main.go:89-108): context
cancellation, a value or closure on the events channel, or a value or
closure on the errors channel. -/
inductive WatchMsg where
  | ctxDone
  | eventsClosed
  | event (name : String) (op : Nat)
  | errorsClosed
  | watchErr

/-- One iteration of `watchFS` (main.go:89-108). The boolean is whether
the loop continues (`false` models `return`). -/
def watchStep {T : Type} (S : Serializer T) (w : WatcherState T) :
    WatchMsg → WatcherState T × Bool
  | WatchMsg.ctxDone => (w, false)
  | WatchMsg.eventsClosed => (w, false)
  | WatchMsg.event name op =>
      if name = w.filename ∧ (op &&& writeOp = writeOp ∨ op &&& createOp = createOp)
      then (load S w, true)
      else (w, true)
  | WatchMsg.errorsClosed => (w, false)
  | WatchMsg.watchErr => (sendError w GoError.watchError, true)

/-! Concrete instances used by witnesses and counterexamples. -/

/-- Concrete serializer over `Nat` for witnesses: `marshal n = [n]`, the
indented form appends a trailing space byte, and `unmarshal` accepts both
shapes. -/
def natSer : Serializer Nat where
  marshal := fun n => some [n]
  marshalIndent := fun n => some [n, 32]
  unmarshal := fun bs =>
    match bs with
    | [b] => some b
    | [b, 32] => some b
    | _ => none

/-- Serializer over `Bool` where `true` has no encoding, modelling a Go
value that `json.Marshal` rejects (e.g. via a failing custom marshaler);
`false` encodes as `[0]`. -/
def boolSer : Serializer Bool where
  marshal := fun b => if b then none else some [0]
  marshalIndent := fun b => if b then none else some [0, 32]
  unmarshal := fun bs =>
    match bs with
    | [7] => some true
    | [9] => some true
    | [0] => some false
    | [0, 32] => some false
    | _ => none

/-- A watcher over Nat holding 6 whose file deserializes to 5. -/
def natState : WatcherState Nat :=
  { value := 6, filename := "/tmp/app.json", file := some [5, 32],
    writable := true, sinkCap := some 8, errors := [], broadcasts := 0 }

/-- A watcher over Nat whose file holds malformed bytes. -/
def natStateBadFile : WatcherState Nat :=
  { value := 6, filename := "/tmp/bad.json", file := some [1, 2, 3],
    writable := true, sinkCap := some 8, errors := [], broadcasts := 0 }

/-- A watcher over Nat whose file is missing. -/
def natStateMissing : WatcherState Nat :=
  { value := 6, filename := "/tmp/missing.json", file := none,
    writable := true, sinkCap := some 8, errors := [], broadcasts := 0 }

/-- A watcher over Nat whose file is present but empty. -/
def natStateEmpty : WatcherState Nat :=
  { value := 6, filename := "/tmp/empty.json", file := some [],
    writable := true, sinkCap := some 8, errors := [], broadcasts := 0 }

/-- A watcher over Nat with no error channel attached. -/
def natStateNoSink : WatcherState Nat :=
  { value := 1, filename := "/tmp/nosink.json", file := none,
    writable := true, sinkCap := none, errors := [], broadcasts := 0 }

/-- A watcher over Nat whose error channel buffer is full. -/
def natStateFull : WatcherState Nat :=
  { value := 1, filename := "/tmp/full.json", file := none,
    writable := true, sinkCap := some 1, errors := [GoError.ioError], broadcasts := 0 }

/-- A watcher over Bool holding the serializable value `false`, whose file
bytes deserialize to the unserializable value `true`. -/
def boolState : WatcherState Bool :=
  { value := false, filename := "/tmp/flag.json", file := some [7],
    writable := true, sinkCap := some 8, errors := [], broadcasts := 0 }

/-- A read-only variant of `boolState`. -/
def boolStateRO : WatcherState Bool :=
  { boolState with writable := false }

/-- A watcher over Bool holding the unserializable value `true`, whose
file bytes also deserialize to `true`. -/
def boolStateBad : WatcherState Bool :=
  { value := true, filename := "/tmp/flag2.json", file := some [9],
    writable := true, sinkCap := none, errors := [], broadcasts := 0 }

/-! Helper lemmas about `sendError`, `writeFile`, `load` and `equal`. -/

@[simp] theorem sendError_value {T : Type} (w : WatcherState T) (e : GoError) :
    (sendError w e).value = w.value := by
  unfold sendError
  split
  · rfl
  · split <;> rfl

@[simp] theorem sendError_filename {T : Type} (w : WatcherState T) (e : GoError) :
    (sendError w e).filename = w.filename := by
  unfold sendError
  split
  · rfl
  · split <;> rfl

@[simp] theorem sendError_file {T : Type} (w : WatcherState T) (e : GoError) :
    (sendError w e).file = w.file := by
  unfold sendError
  split
  · rfl
  · split <;> rfl

@[simp] theorem sendError_writable {T : Type} (w : WatcherState T) (e : GoError) :
    (sendError w e).writable = w.writable := by
  unfold sendError
  split
  · rfl
  · split <;> rfl

@[simp] theorem sendError_sinkCap {T : Type} (w : WatcherState T) (e : GoError) :
    (sendError w e).sinkCap = w.sinkCap := by
  unfold sendError
  split
  · rfl
  · split <;> rfl

@[simp] theorem sendError_broadcasts {T : Type} (w : WatcherState T) (e : GoError) :
    (sendError w e).broadcasts = w.broadcasts := by
  unfold sendError
  split
  · rfl
  · split <;> rfl

theorem sendError_of_no_sink {T : Type} (w : WatcherState T) (e : GoError)
    (h : w.sinkCap = none) : sendError w e = w := by
  unfold sendError
  rw [h]

theorem sendError_append {T : Type} (w : WatcherState T) (e : GoError) (c : Nat)
    (hs : w.sinkCap = some c) (hlt : w.errors.length < c) :
    (sendError w e).errors = w.errors ++ [e] := by
  unfold sendError
  rw [hs]
  simp [hlt]

theorem sendError_of_full {T : Type} (w : WatcherState T) (e : GoError) (c : Nat)
    (hs : w.sinkCap = some c) (hge : ¬ w.errors.length < c) :
    sendError w e = w := by
  unfold sendError
  rw [hs]
  simp [hge]

theorem equal_trans {T : Type} (S : Serializer T) {a b c : T}
    (h1 : equal S a b = true) (h2 : equal S b c = true) :
    equal S a c = true := by
  unfold equal at h1 h2 ⊢
  rw [beq_iff_eq] at h1 h2 ⊢
  exact h1.trans h2

theorem load_spec {T : Type} (S : Serializer T) (w : WatcherState T)
    (data : Bytes) (n : T)
    (hf : w.file = some data) (hne : data ≠ [])
    (hu : S.unmarshal data = some n) :
    load S w =
      if equal S w.value n = true then w
      else { w with value := n, broadcasts := w.broadcasts + 1 } := by
  have h0 : ¬ data.length = 0 := by simpa [List.length_eq_zero] using hne
  unfold load
  rw [hf]
  simp [h0, hu, Get]

/-! Claim theorems. -/

/-- C1: when the backing file holds non-empty bytes that deserialize to
`n`, `load` stores `n` into the value store and signals exactly one
broadcast if `n` and the current value differ under
canonical-serialization equality, and performs no store and no broadcast
if their canonical serializations are byte-identical. -/
theorem load_change_detection {T : Type} (S : Serializer T) (w : WatcherState T)
    (data : Bytes) (n : T)
    (hf : w.file = some data) (hne : data ≠ [])
    (hu : S.unmarshal data = some n) :
    load S w =
      if equal S w.value n = true then w
      else { w with value := n, broadcasts := w.broadcasts + 1 } :=
  load_spec S w data n hf hne hu

/-- Witness for C1 at a concrete state where the file value differs. -/
theorem load_change_detection_witness :
    load natSer natState =
      if equal natSer natState.value 5 = true then natState
      else { natState with value := 5, broadcasts := natState.broadcasts + 1 } :=
  load_change_detection natSer natState [5, 32] 5 rfl (by decide) rfl

/-- C2: if `Save v` succeeds then `Get` returns a value equal to `v` under
canonical serialization, and the persisted file bytes deserialize to a
value equal to `v`. The hypotheses state that `v` is valid: it serializes
(to the necessarily non-empty JSON bytes) and round-trips to an equal
value; and that the disk accepts the write. -/
theorem save_persists_and_get_equals {T : Type} (S : Serializer T)
    (w : WatcherState T) (v : T) (data : Bytes) (v' : T)
    (hm : S.marshalIndent v = some data) (hne : data ≠ [])
    (hu : S.unmarshal data = some v') (hv : equal S v' v = true)
    (hw : w.writable = true) :
    (Save S w v).2 = none ∧
    equal S (Get (Save S w v).1) v = true ∧
    (Save S w v).1.file = some data ∧
    (∃ u, S.unmarshal (((Save S w v).1.file).getD []) = some u ∧
      equal S u v = true) := by
  have hsave : Save S w v = (load S { w with file := some data }, none) := by
    unfold Save
    rw [hm]
    simp [hw]
  have hload := load_spec S { w with file := some data } data v' rfl hne hu
  rw [hsave]
  by_cases hc : equal S ({ w with file := some data } : WatcherState T).value v' = true
  · rw [hload, if_pos hc]
    exact ⟨rfl, equal_trans S hc hv, rfl, v', by simpa using hu, hv⟩
  · rw [hload, if_neg hc]
    exact ⟨rfl, hv, rfl, v', by simpa using hu, hv⟩

/-- Witness for C2 saving the value 9 over a state holding 6. -/
theorem save_persists_and_get_equals_witness :
    (Save natSer natState 9).2 = none ∧
    equal natSer (Get (Save natSer natState 9).1) 9 = true ∧
    (Save natSer natState 9).1.file = some [9, 32] ∧
    (∃ u, natSer.unmarshal (((Save natSer natState 9).1.file).getD []) = some u ∧
      equal natSer u 9 = true) :=
  save_persists_and_get_equals natSer natState 9 [9, 32] 9 rfl (by decide) rfl
    (by decide) rfl

/-- C3: non-empty file bytes that fail to deserialize leave the value
store, the file and the broadcast count untouched — `Get` keeps returning
the last-known-good value — and, when an error channel with free capacity
is attached, deliver exactly one SerializationError to it. -/
theorem load_malformed_preserved {T : Type} (S : Serializer T)
    (w : WatcherState T) (data : Bytes)
    (hf : w.file = some data) (hne : data ≠ []) (hu : S.unmarshal data = none) :
    (load S w).value = w.value ∧
    Get (load S w) = Get w ∧
    (load S w).broadcasts = w.broadcasts ∧
    (load S w).file = w.file ∧
    (∀ c, w.sinkCap = some c → w.errors.length < c →
      (load S w).errors = w.errors ++ [GoError.serializationError]) := by
  have h0 : ¬ data.length = 0 := by simpa [List.length_eq_zero] using hne
  have h : load S w = sendError w GoError.serializationError := by
    unfold load
    rw [hf]
    simp [h0, hu]
  rw [h]
  exact ⟨sendError_value w _, sendError_value w _, sendError_broadcasts w _,
    sendError_file w _, fun c hs hlt => sendError_append w _ c hs hlt⟩

/-- Witness for C3 at a state whose file holds three junk bytes. -/
theorem load_malformed_preserved_witness :
    (load natSer natStateBadFile).value = natStateBadFile.value ∧
    Get (load natSer natStateBadFile) = Get natStateBadFile ∧
    (load natSer natStateBadFile).broadcasts = natStateBadFile.broadcasts ∧
    (load natSer natStateBadFile).file = natStateBadFile.file ∧
    (load natSer natStateBadFile).errors =
      natStateBadFile.errors ++ [GoError.serializationError] := by
  have h := load_malformed_preserved natSer natStateBadFile [1, 2, 3] rfl
    (by decide) rfl
  exact ⟨h.1, h.2.1, h.2.2.1, h.2.2.2.1, h.2.2.2.2 8 rfl (by decide)⟩

/-- C4: when the file is missing or unreadable, `load` reports an IOError
(delivered when a channel with free capacity is attached), recreates the
file with the current in-memory value through `writeFile` — which by
definition performs no nested `load` — and mutates neither the value store
nor the broadcast count; `load` returns normally, so a missing file is
never a hard failure. -/
theorem load_missing_recreates {T : Type} (S : Serializer T)
    (w : WatcherState T) (data : Bytes)
    (hf : w.file = none) (hm : S.marshalIndent w.value = some data)
    (hw : w.writable = true) :
    (load S w).value = w.value ∧
    (load S w).broadcasts = w.broadcasts ∧
    (load S w).file = some data ∧
    load S w = (writeFile S (sendError w GoError.ioError) w.value).1 ∧
    (∀ c, w.sinkCap = some c → w.errors.length < c →
      (load S w).errors = w.errors ++ [GoError.ioError]) := by
  have hl : load S w = (writeFile S (sendError w GoError.ioError) w.value).1 := by
    unfold load
    rw [hf]
    simp [Get]
  have hw1 : (sendError w GoError.ioError).writable = true := by
    rw [sendError_writable]
    exact hw
  have hm1 : S.marshalIndent (sendError w GoError.ioError).value = some data := by
    rw [sendError_value]
    exact hm
  have hwf : (writeFile S (sendError w GoError.ioError) w.value).1 =
      { sendError w GoError.ioError with file := some data } := by
    unfold writeFile
    rw [show S.marshalIndent w.value = some data from hm]
    simp [hw]
  refine ⟨?_, ?_, ?_, hl, ?_⟩
  · rw [hl, hwf]
    show (sendError w GoError.ioError).value = w.value
    exact sendError_value w _
  · rw [hl, hwf]
    show (sendError w GoError.ioError).broadcasts = w.broadcasts
    exact sendError_broadcasts w _
  · rw [hl, hwf]
  · intro c hs hlt
    rw [hl, hwf]
    show (sendError w GoError.ioError).errors = w.errors ++ [GoError.ioError]
    exact sendError_append w _ c hs hlt

/-- Witness for C4 at a state whose file is missing. -/
theorem load_missing_recreates_witness :
    (load natSer natStateMissing).value = natStateMissing.value ∧
    (load natSer natStateMissing).broadcasts = natStateMissing.broadcasts ∧
    (load natSer natStateMissing).file = some [6, 32] ∧
    load natSer natStateMissing =
      (writeFile natSer (sendError natStateMissing GoError.ioError)
        natStateMissing.value).1 ∧
    (load natSer natStateMissing).errors =
      natStateMissing.errors ++ [GoError.ioError] := by
  have h := load_missing_recreates natSer natStateMissing [6, 32] rfl rfl rfl
  exact ⟨h.1, h.2.1, h.2.2.1, h.2.2.2.1, h.2.2.2.2 8 rfl (by decide)⟩

/-- C5: `Save` returns a serialization failure synchronously and mirrors
it to the sink (when attached with free capacity), touching neither the
file nor the value store; it likewise returns a write failure
synchronously (value store untouched); and on successful
serialize-and-write it equals `load` run on the state whose file holds the
persisted bytes, so the in-memory value is re-derived from disk rather
than taken from the argument. -/
theorem save_error_contract {T : Type} (S : Serializer T) :
    (∀ (w : WatcherState T) (cfg : T), S.marshalIndent cfg = none →
      (Save S w cfg).2 = some GoError.serializationError ∧
      (Save S w cfg).1.file = w.file ∧
      (Save S w cfg).1.value = w.value ∧
      (∀ c, w.sinkCap = some c → w.errors.length < c →
        (Save S w cfg).1.errors = w.errors ++ [GoError.serializationError])) ∧
    (∀ (w : WatcherState T) (cfg : T) (data : Bytes),
      S.marshalIndent cfg = some data → w.writable = false →
      (Save S w cfg).2 = some GoError.ioError ∧
      (Save S w cfg).1.value = w.value ∧
      (∀ c, w.sinkCap = some c → w.errors.length < c →
        (Save S w cfg).1.errors = w.errors ++ [GoError.ioError])) ∧
    (∀ (w : WatcherState T) (cfg : T) (data : Bytes),
      S.marshalIndent cfg = some data → w.writable = true →
      Save S w cfg = (load S { w with file := some data }, none)) := by
  refine ⟨?_, ?_, ?_⟩
  · intro w cfg hm
    have h : Save S w cfg =
        (sendError w GoError.serializationError, some GoError.serializationError) := by
      unfold Save
      rw [hm]
    rw [h]
    exact ⟨rfl, sendError_file w _, sendError_value w _,
      fun c hs hlt => sendError_append w _ c hs hlt⟩
  · intro w cfg data hm hw
    have h : Save S w cfg = (sendError w GoError.ioError, some GoError.ioError) := by
      unfold Save
      rw [hm]
      simp [hw]
    rw [h]
    exact ⟨rfl, sendError_value w _, fun c hs hlt => sendError_append w _ c hs hlt⟩
  · intro w cfg data hm hw
    unfold Save
    rw [hm]
    simp [hw]

/-- Witness for C5: an unserializable value, a read-only disk, and a
successful save. -/
theorem save_error_contract_witness :
    (Save boolSer boolState true).2 = some GoError.serializationError ∧
    (Save boolSer boolStateRO false).2 = some GoError.ioError ∧
    Save boolSer boolState false =
      (load boolSer { boolState with file := some [0, 32] }, none) :=
  ⟨((save_error_contract boolSer).1 boolState true rfl).1,
   ((save_error_contract boolSer).2.1 boolStateRO false [0, 32] rfl rfl).1,
   (save_error_contract boolSer).2.2 boolState false [0, 32] rfl rfl⟩

/-- C6: when the file is present but empty, `load` writes the current
in-memory value to the file, emits no error, and performs no value-store
mutation and no broadcast. -/
theorem load_empty_populates {T : Type} (S : Serializer T)
    (w : WatcherState T) (data : Bytes)
    (hf : w.file = some []) (hm : S.marshalIndent w.value = some data)
    (hw : w.writable = true) :
    (load S w).value = w.value ∧
    (load S w).errors = w.errors ∧
    (load S w).broadcasts = w.broadcasts ∧
    (load S w).file = some data := by
  have h : load S w = { w with file := some data } := by
    unfold load
    rw [hf]
    simp only [List.length_nil, if_pos rfl, Get]
    unfold writeFile
    rw [hm]
    simp [hw]
  rw [h]
  exact ⟨rfl, rfl, rfl, rfl⟩

/-- Witness for C6 at a state whose file is empty. -/
theorem load_empty_populates_witness :
    (load natSer natStateEmpty).value = natStateEmpty.value ∧
    (load natSer natStateEmpty).errors = natStateEmpty.errors ∧
    (load natSer natStateEmpty).broadcasts = natStateEmpty.broadcasts ∧
    (load natSer natStateEmpty).file = some [6, 32] :=
  load_empty_populates natSer natStateEmpty [6, 32] rfl rfl rfl

/-- The write bit of an fsnotify op, as a mask test and as a bit test. -/
theorem and_writeOp_iff (op : Nat) :
    op &&& writeOp = writeOp ↔ op.testBit 1 = true := by
  rw [show writeOp = 2 ^ 1 from rfl, Nat.and_two_pow]
  cases h : op.testBit 1 <;> simp [h]

/-- The create bit of an fsnotify op, as a mask test and as a bit test. -/
theorem and_createOp_iff (op : Nat) :
    op &&& createOp = createOp ↔ op.testBit 0 = true := by
  rw [show createOp = 2 ^ 0 from rfl, Nat.and_two_pow]
  cases h : op.testBit 0 <;> simp [h]

/-- C7: a filesystem event triggers `load` exactly when its path equals
the watcher's absolute file path and its operation has the write or the
create bit set; every other event leaves the state unchanged; an error
from the watch error stream is forwarded to the sink and the loop
continues; a closed events or errors channel terminates the loop. -/
theorem watchFS_event_filtering {T : Type} (S : Serializer T) (w : WatcherState T) :
    (∀ name op, watchStep S w (WatchMsg.event name op) =
      (if name = w.filename ∧ (op.testBit 1 = true ∨ op.testBit 0 = true)
       then load S w else w, true)) ∧
    watchStep S w WatchMsg.watchErr = (sendError w GoError.watchError, true) ∧
    watchStep S w WatchMsg.eventsClosed = (w, false) ∧
    watchStep S w WatchMsg.errorsClosed = (w, false) := by
  refine ⟨?_, rfl, rfl, rfl⟩
  intro name op
  unfold watchStep
  simp only [and_writeOp_iff, and_createOp_iff]
  split <;> rfl

/-- C8: the cancellation branch of the watch loop stops the FSMonitor
iteration with the state untouched — after it fires, no further `load` or
broadcast happens in the loop and `Get` still returns the last value —
which is the intended Active-to-Closed semantics. The repository, however,
exposes no operation that fires the token: the cancel function stored at
construction (main.go:57) is never invoked by any method, so the explicit
teardown the spec describes does not exist in the code. -/
theorem watch_ctxDone_stops :
    watchStep natSer natState WatchMsg.ctxDone = (natState, false) ∧
    Get natState = natState.value :=
  ⟨rfl, rfl⟩

theorem writeFile_no_sink {T : Type} (S : Serializer T) (w : WatcherState T)
    (cfg : T) (h : w.sinkCap = none) :
    (writeFile S w cfg).1.errors = w.errors ∧
    (writeFile S w cfg).1.sinkCap = none := by
  unfold writeFile
  split
  · rw [sendError_of_no_sink w _ h]
    exact ⟨rfl, h⟩
  · split
    · exact ⟨rfl, h⟩
    · rw [sendError_of_no_sink w _ h]
      exact ⟨rfl, h⟩

theorem load_no_sink {T : Type} (S : Serializer T) (w : WatcherState T)
    (h : w.sinkCap = none) :
    (load S w).errors = w.errors ∧ (load S w).sinkCap = none := by
  obtain ⟨v, fn, file, wr, sink, errs, bc⟩ := w
  have hs : sink = none := h
  subst hs
  cases file with
  | none =>
      cases hm : S.marshalIndent v with
      | none => simp [load, writeFile, sendError, Get, hm]
      | some d2 => cases wr <;> simp [load, writeFile, sendError, Get, hm]
  | some data =>
      by_cases h0 : data.length = 0
      · cases hm : S.marshalIndent v with
        | none => simp [load, writeFile, sendError, Get, hm, h0]
        | some d2 => cases wr <;> simp [load, writeFile, sendError, Get, hm, h0]
      · cases hu : S.unmarshal data with
        | none => simp [load, sendError, Get, hu, h0]
        | some n =>
            by_cases he : equal S v n = true
            · simp [load, Get, hu, h0, he]
            · simp [load, Get, hu, h0, he]

theorem foldl_applyOption_errors {T : Type} (opts : List WatcherOption)
    (w : WatcherState T) :
    (opts.foldl applyOption w).errors = w.errors := by
  induction opts generalizing w with
  | nil => rfl
  | cons o rest ih =>
      rw [List.foldl_cons, ih]
      cases o
      rfl

/-- C9: the option mutators run only after the initial `load`, so whatever
that load does, a watcher constructed with any options — in particular a
`WithErrorChan` one — ends construction with an empty error channel: every
error of the initial load is dropped because no sink is attached yet.
Later delivery is non-blocking: `sendError` is the identity when no sink
is attached and when the attached sink's buffer is full. -/
theorem options_applied_after_load {T : Type} (S : Serializer T) (d : T)
    (fn : String) (f : Option Bytes) (wr : Bool) (opts : List WatcherOption) :
    (NewWatcher S d fn f wr opts).errors = [] ∧
    (∀ (w : WatcherState T) (e : GoError), w.sinkCap = none → sendError w e = w) ∧
    (∀ (w : WatcherState T) (c : Nat) (e : GoError),
      w.sinkCap = some c → ¬ w.errors.length < c → sendError w e = w) := by
  refine ⟨?_, fun w e h => sendError_of_no_sink w e h,
    fun w c e hs hge => sendError_of_full w e c hs hge⟩
  unfold NewWatcher
  rw [foldl_applyOption_errors]
  exact (load_no_sink S _ rfl).1

/-- Witness for C9: a watcher built over a missing file with an error
channel attached (the initial IOError is dropped), an unattached sink, and
a full sink. -/
theorem options_applied_after_load_witness :
    (NewWatcher natSer 5 "/tmp/a.json" none true
      [WatcherOption.withErrorChan 4]).errors = [] ∧
    sendError natStateNoSink GoError.ioError = natStateNoSink ∧
    sendError natStateFull GoError.watchError = natStateFull :=
  ⟨(options_applied_after_load natSer 5 "/tmp/a.json" none true
      [WatcherOption.withErrorChan 4]).1,
   (options_applied_after_load natSer 5 "/tmp/a.json" none true []).2.1
      natStateNoSink GoError.ioError rfl,
   (options_applied_after_load natSer 5 "/tmp/a.json" none true []).2.2
      natStateFull 1 GoError.watchError rfl (by decide)⟩

/-- C10 counterexample: with current value `false` (serializable) and file
bytes that deserialize to `true` (whose serialization fails), `load`
stores and broadcasts the unserializable value — refuting the claim that
`load` never stores or broadcasts a new value that cannot be
serialized. -/
theorem load_stores_unserializable :
    boolSer.marshal (load boolSer boolState).value = none ∧
    (load boolSer boolState).broadcasts = boolState.broadcasts + 1 ∧
    (load boolSer boolState).value ≠ boolState.value := by
  refine ⟨rfl, rfl, ?_⟩
  decide

/-- C10 amended: equality via canonical serialization is reflexive, any
two values whose serializations both fail compare equal (both encodings
are the empty byte string), and consequently when the current value itself
cannot be serialized, `load` never stores or broadcasts a newly
deserialized value that also cannot be serialized. -/
theorem equal_discards_marshal_errors {T : Type} (S : Serializer T) :
    (∀ a : T, equal S a a = true) ∧
    (∀ a b : T, S.marshal a = none → S.marshal b = none → equal S a b = true) ∧
    (∀ (w : WatcherState T) (data : Bytes) (n : T),
      w.file = some data → data ≠ [] → S.unmarshal data = some n →
      S.marshal w.value = none → S.marshal n = none →
      load S w = w) := by
  refine ⟨?_, ?_, ?_⟩
  · intro a
    unfold equal
    exact beq_self_eq_true _
  · intro a b ha hb
    unfold equal
    rw [ha, hb]
    rfl
  · intro w data n hf hne hu ha hn
    have heq : equal S w.value n = true := by
      unfold equal
      rw [ha, hn]
      rfl
    rw [load_spec S w data n hf hne hu, if_pos heq]

/-- Witness for C10's amended statement: reflexivity at `false`, equality
of two unserializable values, and a no-op `load` over an unserializable
current value. -/
theorem equal_discards_marshal_errors_witness :
    equal boolSer false false = true ∧
    equal boolSer true true = true ∧
    load boolSer boolStateBad = boolStateBad :=
  ⟨(equal_discards_marshal_errors boolSer).1 false,
   (equal_discards_marshal_errors boolSer).2.1 true true rfl rfl,
   (equal_discards_marshal_errors boolSer).2.2 boolStateBad [9] true rfl
     (by decide) rfl rfl rfl⟩

end ConfigWatcher
